import Mathlib

/-!
Shallow embedding of the mock response fabricators of the GreenPulse AI
frontend (src/frontend/src/services/mockData.js), together with theorems
checking the specification claims about them.

JavaScript numbers are embedded as rationals (ℚ): every computation in the
fabricators is a finite composition of additions, multiplications, divisions
and threshold comparisons on small decimal constants, all exactly
representable.  `Math.random()`-derived draws are passed in explicitly as
parameters (a draw structure per fabricator), one field per call site in the
order the source performs them; each field carries the range of the source
call in a comment.  Timestamps and calendar dates (`new Date()`) are not
modelled: they are ambient wall-clock effects with no bearing on any claim.
JavaScript object keys that are only conditionally present are embedded as
`Option` fields.
-/

namespace GreenPulse

/-- JS `Math.round`: rounds to the nearest integer, halves toward +∞,
which on the rationals is `⌊x + 1/2⌋`. -/
def jsRound (q : ℚ) : ℤ := ⌊q + 1/2⌋

/-- JS `Math.round(q * 100) / 100`: round to two decimal places. -/
def round2 (q : ℚ) : ℚ := (jsRound (q * 100) : ℚ) / 100

/-- JS `Math.round(q * 10000) / 10000`: round to four decimal places. -/
def round4 (q : ℚ) : ℚ := (jsRound (q * 10000) : ℚ) / 10000

/-- JS `Math.round(q * 1000) / 1000`: round to three decimal places. -/
def round3 (q : ℚ) : ℚ := (jsRound (q * 1000) : ℚ) / 1000

theorem jsRound_sub_le (q : ℚ) : |(jsRound q : ℚ) - q| ≤ 1/2 := by
  unfold jsRound
  rw [abs_le]
  constructor
  · have h := Int.sub_one_lt_floor (q + 1/2)
    push_cast at h ⊢
    linarith
  · have h := Int.floor_le (q + 1/2)
    push_cast at h ⊢
    linarith

theorem round2_sub_le (q : ℚ) : |round2 q - q| ≤ 1/200 := by
  have h := jsRound_sub_le (q * 100)
  have e : round2 q - q = ((jsRound (q * 100) : ℚ) - q * 100) / 100 := by
    unfold round2
    ring
  rw [e, abs_div, show |(100:ℚ)| = 100 from abs_of_pos (by norm_num),
    div_le_iff₀ (show (0:ℚ) < 100 by norm_num)]
  linarith

/-! ## Credit assessment fabricator (`mockCreditAssessment`) -/

/-- Random draws consumed by `mockCreditAssessment`, in source order. -/
structure CreditDraws where
  /-- drawn by `randomBetween(45, 95)` -/
  traditional : ℚ
  /-- drawn by `randomBetween(40, 92)` -/
  carbon : ℚ
  /-- drawn by `randomBetween(50, 90)` -/
  esg : ℚ
  /-- drawn by `randomInt(500, 4000)` -/
  emissions : ℤ
  /-- drawn by `randomBetween(-0.15, 0.1)` -/
  trend : ℚ
  /-- drawn by `randomInt(10, 75)` -/
  renewablePct : ℤ
  /-- drawn by `randomBetween(0, 1)` for `leverage_assessment` -/
  leverageU : ℚ
  /-- drawn by `randomBetween(0, 1)` for `default_history` -/
  defaultU : ℚ
  /-- drawn by `randomInt(2, 4)` for `sdg_aligned_count` -/
  sdgCount : ℤ

structure TraditionalRisk where
  risk_score : ℚ
  revenue_assessment : String
  profitability_assessment : String
  leverage_assessment : String
  liquidity_assessment : String
  default_history : String

structure CarbonRisk where
  carbon_risk_score : ℚ
  emission_intensity : String
  trend_direction : String
  transition_readiness : String
  regulatory_risk : String
  stranded_asset_risk : String

structure EsgRisk where
  esg_risk_score : ℚ
  environmental_rating : String
  social_rating : String
  governance_rating : String
  sdg_aligned_count : ℤ
  reputational_risk : String

structure RiskAnalysis where
  traditional_risk : TraditionalRisk
  carbon_risk : CarbonRisk
  esg_risk : EsgRisk
  composite_risk_score : ℚ
  credit_score : ℤ
  risk_category : String

structure CreditRating where
  rating : String
  combined_score : ℚ
  traditional_score : ℚ
  carbon_score : ℚ
  interest_rate_adjustment : ℚ

structure CreditAssessment where
  entity_id : String
  carbon_score : ℚ
  risk_analysis : RiskAnalysis
  credit_rating : CreditRating
  recommendations : List String
  status : String

/-- The combined credit score `traditionalScore * 0.6 + carbonScore * 0.4`
(mockData.js line 23). -/
def creditCombined (d : CreditDraws) : ℚ :=
  d.traditional * 0.6 + d.carbon * 0.4

/-- Embedding of `mockCreditAssessment` (mockData.js lines 19-86). -/
def mockCreditAssessment (entityId : String) (d : CreditDraws) : CreditAssessment :=
  let traditionalScore := d.traditional
  let carbonScore := d.carbon
  let esgScore := d.esg
  let combinedScore := creditCombined d
  let rating :=
    if combinedScore ≥ 80 then "AAA"
    else if combinedScore ≥ 70 then "AA"
    else if combinedScore ≥ 60 then "A"
    else if combinedScore ≥ 50 then "BBB"
    else "BB"
  let interestAdj : ℚ :=
    if combinedScore ≥ 80 then -0.02
    else if combinedScore ≥ 70 then -0.01
    else if combinedScore ≥ 60 then 0
    else if combinedScore ≥ 50 then 0.01
    else 0.02
  { entity_id := entityId
    carbon_score := round2 carbonScore
    risk_analysis :=
      { traditional_risk :=
          { risk_score := round2 traditionalScore
            revenue_assessment := if traditionalScore > 70 then "strong" else "moderate"
            profitability_assessment := if traditionalScore > 65 then "strong" else "moderate"
            leverage_assessment := if d.leverageU > 0.5 then "low" else "moderate"
            liquidity_assessment := if traditionalScore > 60 then "strong" else "moderate"
            default_history := if d.defaultU > 0.8 then "concerning" else "clean" }
        carbon_risk :=
          { carbon_risk_score := round2 carbonScore
            emission_intensity := if d.emissions > 2000 then "high" else "moderate"
            trend_direction := if d.trend < 0 then "improving" else "worsening"
            transition_readiness := if d.renewablePct > 50 then "strong" else "developing"
            regulatory_risk :=
              if d.emissions > 3000 ∧ d.renewablePct < 30 then "high"
              else if d.renewablePct < 50 then "moderate"
              else "low"
            stranded_asset_risk := if d.renewablePct < 20 then "high" else "low" }
        esg_risk :=
          { esg_risk_score := round2 esgScore
            environmental_rating :=
              if esgScore > 80 then "excellent" else if esgScore > 70 then "good" else "fair"
            social_rating := if esgScore > 75 then "good" else "fair"
            governance_rating := if esgScore > 70 then "good" else "fair"
            sdg_aligned_count := d.sdgCount
            reputational_risk := if esgScore > 70 then "low" else "moderate" }
        composite_risk_score := round2 combinedScore
        credit_score := jsRound (300 + combinedScore / 100 * 550)
        risk_category :=
          if combinedScore ≥ 80 then "low_risk"
          else if combinedScore ≥ 60 then "moderate_risk"
          else "elevated_risk" }
    credit_rating :=
      { rating := rating
        combined_score := round2 combinedScore
        traditional_score := round2 traditionalScore
        carbon_score := round2 carbonScore
        interest_rate_adjustment := interestAdj }
    recommendations :=
      if carbonScore < 60 then
        ["Consider implementing renewable energy sources to improve carbon score",
         "Develop a carbon reduction roadmap to access better financing terms",
         "Improve ESG reporting transparency to enhance investor confidence"]
      else
        ["Maintain current sustainability initiatives",
         "Consider carbon offset programs for remaining emissions"]
    status := "success" }

/-! ## Portfolio optimization fabricator (`mockPortfolioOptimization`) -/

/-- One row of the fixed asset tables in `generateAssets`. -/
structure AssetTemplate where
  name : String
  allocation : ℚ
  expected_return : ℚ
  volatility : ℚ
  annual_co2_tons : ℚ

/-- A generated asset: the template spread plus the computed and conditional
keys.  `esg_rating` and `sdg_aligned` are present only on green assets. -/
structure Asset where
  name : String
  allocation : ℚ
  expected_return : ℚ
  volatility : ℚ
  annual_co2_tons : ℚ
  type : String
  value : ℚ
  esg_rating : Option String
  sdg_aligned : Option Bool

/-- The six fixed asset tables, keyed by risk tier and branch; `none` for a
risk-tolerance string outside the three keys (in JS, `assetSets[riskTolerance]`
is then `undefined` and the subsequent `.map` throws). -/
def assetSets (riskTolerance : String) (isGreen : Bool) : Option (List AssetTemplate) :=
  if riskTolerance = "conservative" then some (
    if isGreen then
      [{ name := "Green Bonds", allocation := 0.50, expected_return := 0.045, volatility := 0.06, annual_co2_tons := 25 },
       { name := "Renewable Energy Funds", allocation := 0.25, expected_return := 0.07, volatility := 0.12, annual_co2_tons := 50 },
       { name := "ESG Index Funds", allocation := 0.15, expected_return := 0.065, volatility := 0.10, annual_co2_tons := 100 },
       { name := "Sustainable Real Estate", allocation := 0.10, expected_return := 0.055, volatility := 0.09, annual_co2_tons := 75 }]
    else
      [{ name := "Corporate Bonds", allocation := 0.60, expected_return := 0.04, volatility := 0.05, annual_co2_tons := 500 },
       { name := "Large Cap Stocks", allocation := 0.25, expected_return := 0.08, volatility := 0.15, annual_co2_tons := 2000 },
       { name := "Real Estate", allocation := 0.10, expected_return := 0.06, volatility := 0.12, annual_co2_tons := 1500 },
       { name := "Cash", allocation := 0.05, expected_return := 0.01, volatility := 0.02, annual_co2_tons := 0 }])
  else if riskTolerance = "moderate" then some (
    if isGreen then
      [{ name := "ESG Equity Funds", allocation := 0.35, expected_return := 0.085, volatility := 0.14, annual_co2_tons := 90 },
       { name := "Green Bonds", allocation := 0.30, expected_return := 0.045, volatility := 0.06, annual_co2_tons := 25 },
       { name := "Renewable Infrastructure", allocation := 0.20, expected_return := 0.075, volatility := 0.11, annual_co2_tons := 60 },
       { name := "Sustainable Agriculture", allocation := 0.15, expected_return := 0.070, volatility := 0.13, annual_co2_tons := 50 }]
    else
      [{ name := "Index Funds", allocation := 0.40, expected_return := 0.08, volatility := 0.15, annual_co2_tons := 2000 },
       { name := "Bonds", allocation := 0.30, expected_return := 0.04, volatility := 0.06, annual_co2_tons := 500 },
       { name := "Stocks", allocation := 0.20, expected_return := 0.10, volatility := 0.18, annual_co2_tons := 2500 },
       { name := "Alternatives", allocation := 0.10, expected_return := 0.07, volatility := 0.20, annual_co2_tons := 1800 }])
  else if riskTolerance = "aggressive" then some (
    if isGreen then
      [{ name := "Clean Tech Stocks", allocation := 0.40, expected_return := 0.13, volatility := 0.24, annual_co2_tons := 75 },
       { name := "Solar Energy Companies", allocation := 0.25, expected_return := 0.14, volatility := 0.26, annual_co2_tons := 40 },
       { name := "Electric Vehicle Sector", allocation := 0.20, expected_return := 0.12, volatility := 0.23, annual_co2_tons := 100 },
       { name := "Carbon Credit Futures", allocation := 0.15, expected_return := 0.10, volatility := 0.28, annual_co2_tons := 25 }]
    else
      [{ name := "Growth Stocks", allocation := 0.50, expected_return := 0.12, volatility := 0.25, annual_co2_tons := 3000 },
       { name := "Tech Stocks", allocation := 0.25, expected_return := 0.15, volatility := 0.30, annual_co2_tons := 2500 },
       { name := "Emerging Markets", allocation := 0.15, expected_return := 0.10, volatility := 0.28, annual_co2_tons := 3500 },
       { name := "Commodities", allocation := 0.10, expected_return := 0.08, volatility := 0.22, annual_co2_tons := 4000 }])
  else none

/-- Embedding of the inner `generateAssets` closure (mockData.js lines 89-133).
`esgU` supplies the `randomBetween(0, 1)` draw made per asset on the green
branch (one per position in the mapped list); the traditional branch draws
nothing. -/
def generateAssets (capital : ℚ) (riskTolerance : String) (esgU : ℕ → ℚ)
    (isGreen : Bool) : Option (List Asset) :=
  (assetSets riskTolerance isGreen).map fun templates =>
    templates.mapIdx fun i asset =>
      { name := asset.name
        allocation := asset.allocation
        expected_return := asset.expected_return
        volatility := asset.volatility
        type := if isGreen then "green" else "traditional"
        value := round2 (capital * asset.allocation)
        annual_co2_tons := (jsRound (asset.annual_co2_tons * asset.allocation) : ℚ)
        esg_rating := if isGreen then some (if esgU i > 0.5 then "AAA" else "AA") else none
        sdg_aligned := if isGreen then some true else none }

structure Metrics where
  expectedReturn : ℚ
  volatility : ℚ
  sharpeRatio : ℚ
  carbonFootprint : ℚ

/-- Embedding of the inner `calcMetrics` closure (mockData.js lines 135-141). -/
def calcMetrics (assets : List Asset) : Metrics :=
  let expectedReturn := assets.foldl (fun sum a => sum + a.expected_return * a.allocation) 0
  let volatility := assets.foldl (fun sum a => sum + a.volatility * a.allocation) 0
  let carbonFootprint := assets.foldl (fun sum a => sum + a.annual_co2_tons) 0
  let sharpeRatio := (expectedReturn - 0.02) / volatility
  { expectedReturn := expectedReturn, volatility := volatility,
    sharpeRatio := sharpeRatio, carbonFootprint := carbonFootprint }

structure Portfolio where
  portfolio_type : String
  total_value : ℚ
  assets : List Asset
  expected_return : ℚ
  volatility : ℚ
  sharpe_ratio : ℚ
  annual_carbon_footprint : ℤ
deriving Inhabited

structure GreenPortfolio where
  portfolio_type : String
  total_value : ℚ
  assets : List Asset
  expected_return : ℚ
  volatility : ℚ
  sharpe_ratio : ℚ
  annual_carbon_footprint : ℤ
  carbon_neutrality_timeline_years : ℕ
  sdg_alignment_score : ℕ
deriving Inhabited

structure CarbonComparison where
  traditional_emissions_tons : ℤ
  green_emissions_tons : ℤ
  reduction_tons : ℤ
  reduction_percentage : ℚ
  net_zero_timeline_years : ℕ
deriving Inhabited

structure PortfolioPair where
  traditional_portfolio : Portfolio
  green_portfolio : GreenPortfolio
  carbon_comparison : CarbonComparison
  recommendations : String
  status : String
deriving Inhabited

/-- Embedding of `mockPortfolioOptimization` (mockData.js lines 88-183).
Returns `none` when the risk-tolerance string is not one of the three table
keys, modelling the TypeError the JS code throws there. -/
def mockPortfolioOptimization (capital : ℚ) (riskTolerance : String)
    (targetReturn : ℚ) (esgU : ℕ → ℚ) : Option PortfolioPair :=
  match generateAssets capital riskTolerance esgU false,
        generateAssets capital riskTolerance esgU true with
  | some tradAssets, some greenAssets =>
    let tradMetrics := calcMetrics tradAssets
    let greenMetrics := calcMetrics greenAssets
    let reduction := tradMetrics.carbonFootprint - greenMetrics.carbonFootprint
    let reductionPct := reduction / tradMetrics.carbonFootprint * 100
    some
      { traditional_portfolio :=
          { portfolio_type := "traditional"
            total_value := capital
            assets := tradAssets
            expected_return := round4 tradMetrics.expectedReturn
            volatility := round4 tradMetrics.volatility
            sharpe_ratio := round3 tradMetrics.sharpeRatio
            annual_carbon_footprint := jsRound tradMetrics.carbonFootprint }
        green_portfolio :=
          { portfolio_type := "green"
            total_value := capital
            assets := greenAssets
            expected_return := round4 greenMetrics.expectedReturn
            volatility := round4 greenMetrics.volatility
            sharpe_ratio := round3 greenMetrics.sharpeRatio
            annual_carbon_footprint := jsRound greenMetrics.carbonFootprint
            carbon_neutrality_timeline_years :=
              if greenMetrics.carbonFootprint ≤ 100 then 2
              else if greenMetrics.carbonFootprint ≤ 300 then 5
              else 8
            sdg_alignment_score := 85 }
        carbon_comparison :=
          { traditional_emissions_tons := jsRound tradMetrics.carbonFootprint
            green_emissions_tons := jsRound greenMetrics.carbonFootprint
            reduction_tons := jsRound reduction
            reduction_percentage := (jsRound (reductionPct * 10) : ℚ) / 10
            net_zero_timeline_years :=
              if greenMetrics.carbonFootprint ≤ 100 then 2
              else if greenMetrics.carbonFootprint ≤ 300 then 5
              else 8 }
        recommendations :=
          "Consider green portfolio for " ++ toString (jsRound reductionPct) ++
            "% lower carbon footprint with comparable returns"
        status := "success" }
  | _, _ => none

/-! ## Micro-loan fabricator (`mockMicroLoan`) -/

/-- Random draws consumed by `mockMicroLoan`, in source order. -/
structure LoanDraws where
  /-- drawn by `randomBetween(50, 95)` -/
  mobile : ℚ
  /-- drawn by `randomBetween(40, 90)` -/
  green : ℚ
  /-- drawn by `randomBetween(55, 85)` -/
  social : ℚ
  /-- drawn by `randomBetween(0.75, 0.92)` for `confidence_level` -/
  confidence : ℚ

/-- The composite loan score `0.5*mobile + 0.3*green + 0.2*social`. -/
def loanComposite (d : LoanDraws) : ℚ :=
  d.mobile * 0.5 + d.green * 0.3 + d.social * 0.2

structure LoanAssessment where
  applicant_id : String
  alternative_credit_score : ℚ
  mobile_payment_score : ℚ
  green_activity_score : ℚ
  social_score : ℚ
  approved : Bool
  confidence_level : ℚ
  assessment_method : String

structure LoanTerms where
  approved_amount : ℚ
  interest_rate : ℚ
  loan_term_months : ℕ
  monthly_payment : ℚ
  total_repayment : ℚ
  total_interest : ℚ
  special_terms : List String

structure LoanResponse where
  applicant_id : String
  assessment : LoanAssessment
  loan_terms : Option LoanTerms
  approval_status : Bool
  status : String

/-- The interest rate selected from the four composite-score bands
(mockData.js lines 192-197). -/
def loanInterestRate (c : ℚ) : ℚ :=
  if c ≥ 80 then 0.06
  else if c ≥ 65 then 0.08
  else if c ≥ 55 then 0.10
  else 0.12

/-- The maximum-amount cap selected from the four composite-score bands
(mockData.js lines 192-197): initialized to the requested amount, the 80 band
sets 1.2x, the 65 band leaves it unchanged, the 55 band sets 0.8x and the
rejection band 0.5x. -/
def loanMaxAmount (amount c : ℚ) : ℚ :=
  if c ≥ 80 then amount * 1.2
  else if c ≥ 65 then amount
  else if c ≥ 55 then amount * 0.8
  else amount * 0.5

/-- The standard fixed-rate amortization formula
`P * (r(1+r)^n) / ((1+r)^n - 1)` with term `n = 24` (mockData.js line 202). -/
def loanMonthlyPayment (P r : ℚ) : ℚ :=
  P * (r * (1 + r) ^ 24) / ((1 + r) ^ 24 - 1)

/-- Embedding of `mockMicroLoan` (mockData.js lines 185-242).  The
`first_payment_date` field (current date + 30 days) is wall-clock derived and
not modelled.  `loan_terms` is `Option`-valued because a JS response object
may in principle lack the key; the source builds it unconditionally. -/
def mockMicroLoan (applicantId : String) (amount : ℚ) (d : LoanDraws) : LoanResponse :=
  let compositeScore := loanComposite d
  let approved := decide (compositeScore ≥ 55)
  let interestRate := loanInterestRate compositeScore
  let maxAmount := loanMaxAmount amount compositeScore
  let approvedAmount := min amount maxAmount
  let termMonths : ℕ := 24
  let monthlyRate := interestRate / 12
  let monthlyPayment := loanMonthlyPayment approvedAmount monthlyRate
  let totalRepayment := monthlyPayment * 24
  { applicant_id := applicantId
    assessment :=
      { applicant_id := applicantId
        alternative_credit_score := round2 compositeScore
        mobile_payment_score := round2 d.mobile
        green_activity_score := round2 d.green
        social_score := round2 d.social
        approved := approved
        confidence_level := round2 d.confidence
        assessment_method := "alternative_data" }
    loan_terms := some
      { approved_amount := round2 approvedAmount
        interest_rate := round4 interestRate
        loan_term_months := termMonths
        monthly_payment := round2 monthlyPayment
        total_repayment := round2 totalRepayment
        total_interest := round2 (totalRepayment - approvedAmount)
        special_terms :=
          if d.green > 70 then
            ["Green bonus: 0.5% interest rate reduction for maintaining solar generation",
             "Carbon credit: Earn credits for verified emission reductions",
             "Flexible repayment: Adjust payments based on seasonal income",
             "Financial literacy: Free access to online financial education"]
          else
            ["Flexible repayment: Adjust payments based on seasonal income",
             "Financial literacy: Free access to online financial education"] }
    approval_status := approved
    status := "success" }

/-! ## Greenwashing fabricator (`mockGreenwashingCheck`) -/

/-- Random draws consumed by `mockGreenwashingCheck`, in source order. -/
structure GreenwashDraws where
  /-- drawn by `randomInt(50, 95)` -/
  envScore : ℤ
  /-- drawn by `randomInt(500, 4000)` -/
  emissions : ℤ
  /-- drawn by `randomInt(10, 70)` -/
  renewablePct : ℤ
  /-- drawn by `randomBetween(-0.1, 0.1)` -/
  trend : ℚ
  /-- drawn by `randomInt(0, 20)`, added into the risk index -/
  addend : ℤ
  /-- drawn by `randomBetween(0.75, 0.95)` for `confidence` -/
  confidence : ℚ

structure Anomaly where
  type : String
  description : String
  severity : String

structure GreenwashReport where
  company_id : String
  greenwashing_risk_index : ℤ
  risk_level : String
  anomalies : List Anomaly
  anomaly_count : ℕ
  recommendations : List String
  confidence : ℚ
  status : String

/-- The `riskFactors` counter accumulated by the three rule checks of
`mockGreenwashingCheck` (mockData.js lines 251-278). -/
def greenwashRiskFactors (d : GreenwashDraws) : ℤ :=
  (if d.envScore > 80 ∧ d.emissions > 3000 then 2 else 0) +
  (if d.envScore > 70 ∧ d.renewablePct < 20 then 3 else 0) +
  (if d.trend > 0.05 ∧ d.envScore > 75 then 3 else 0)

/-- Embedding of `mockGreenwashingCheck` (mockData.js lines 244-307). -/
def mockGreenwashingCheck (companyId : String) (d : GreenwashDraws) : GreenwashReport :=
  let anomalies : List Anomaly :=
    (if d.envScore > 80 ∧ d.emissions > 3000 then
      [{ type := "high_score_high_emissions"
         description := "Environmental score is high but emissions are substantial"
         severity := "medium" }]
     else []) ++
    (if d.envScore > 70 ∧ d.renewablePct < 20 then
      [{ type := "score_renewable_mismatch"
         description := "High environmental score but low renewable energy usage"
         severity := "high" }]
     else []) ++
    (if d.trend > 0.05 ∧ d.envScore > 75 then
      [{ type := "increasing_emissions_high_score"
         description := "Emissions increasing while maintaining high environmental score"
         severity := "high" }]
     else [])
  let riskFactors := greenwashRiskFactors d
  let riskIndex := min 100 (riskFactors * 15 + d.addend)
  let riskLevel := if riskIndex > 60 then "high" else if riskIndex > 30 then "moderate" else "low"
  let recommendations : List String :=
    (if riskIndex > 50 then
      ["Request third-party verification of carbon claims",
       "Conduct detailed supply chain emissions audit"]
     else []) ++
    (if riskIndex > 30 then ["Monitor emissions data more frequently"] else []) ++
    (if riskIndex ≤ 30 then
      ["Continue current monitoring practices",
       "Consider publishing detailed sustainability reports"]
     else [])
  { company_id := companyId
    greenwashing_risk_index := riskIndex
    risk_level := riskLevel
    anomalies := anomalies
    anomaly_count := anomalies.length
    recommendations := recommendations
    confidence := round2 d.confidence
    status := "success" }

/-! ## Claim theorems -/

/-- C9: the target-return parameter of `mockPortfolioOptimization` does not
influence the result: two calls with different `targetReturn` values but
identical capital, risk tier and random draws produce identical responses. -/
theorem mockPortfolioOptimization_targetReturn_irrelevant (capital : ℚ)
    (rt : String) (t1 t2 : ℚ) (esgU : ℕ → ℚ) :
    mockPortfolioOptimization capital rt t1 esgU =
      mockPortfolioOptimization capital rt t2 esgU := rfl

/-- C10: `mockPortfolioOptimization` produces a `PortfolioPair` exactly when
the risk-tolerance string is one of the three asset-table keys; for any other
string the table lookup yields nothing and the call fails. -/
theorem mockPortfolioOptimization_defined_iff_known_tier (capital : ℚ)
    (rt : String) (tr : ℚ) (esgU : ℕ → ℚ) :
    (mockPortfolioOptimization capital rt tr esgU).isSome = true ↔
      rt = "conservative" ∨ rt = "moderate" ∨ rt = "aggressive" := by
  unfold mockPortfolioOptimization generateAssets assetSets
  by_cases h1 : rt = "conservative" <;> by_cases h2 : rt = "moderate" <;>
    by_cases h3 : rt = "aggressive" <;> simp [h1, h2, h3]

/-- C3: `mockCreditAssessment` assigns the rating and interest-rate
adjustment from the combined score by descending thresholds: at least 80
gives AAA with -2%, at least 70 gives AA with -1%, at least 60 gives A with
0%, at least 50 gives BBB with +1%, and otherwise BB with +2%; boundary
values map to the higher band. -/
theorem creditRating_bands (e : String) (d : CreditDraws) :
    (80 ≤ creditCombined d →
      (mockCreditAssessment e d).credit_rating.rating = "AAA" ∧
      (mockCreditAssessment e d).credit_rating.interest_rate_adjustment = -0.02) ∧
    (70 ≤ creditCombined d ∧ creditCombined d < 80 →
      (mockCreditAssessment e d).credit_rating.rating = "AA" ∧
      (mockCreditAssessment e d).credit_rating.interest_rate_adjustment = -0.01) ∧
    (60 ≤ creditCombined d ∧ creditCombined d < 70 →
      (mockCreditAssessment e d).credit_rating.rating = "A" ∧
      (mockCreditAssessment e d).credit_rating.interest_rate_adjustment = 0) ∧
    (50 ≤ creditCombined d ∧ creditCombined d < 60 →
      (mockCreditAssessment e d).credit_rating.rating = "BBB" ∧
      (mockCreditAssessment e d).credit_rating.interest_rate_adjustment = 0.01) ∧
    (creditCombined d < 50 →
      (mockCreditAssessment e d).credit_rating.rating = "BB" ∧
      (mockCreditAssessment e d).credit_rating.interest_rate_adjustment = 0.02) := by
  unfold mockCreditAssessment
  dsimp only
  split_ifs with h1 h2 h3 h4 <;>
    refine ⟨?_, ?_, ?_, ?_, ?_⟩ <;> intro h <;>
      first
        | exact ⟨rfl, rfl⟩
        | (exfalso; first | linarith [h.1, h.2] | linarith [h])

/-- C3 witness: concrete instances in every band, including the documented
end-to-end scenario traditional=90, carbon=85 giving combined=88, rating AAA
and adjustment -2%, and the boundary values 80, 70, 60, 55 and 40. -/
theorem creditRating_bands_witness :
    creditCombined ⟨90, 85, 70, 1000, 0, 40, 0.3, 0.3, 3⟩ = 88 ∧
    ((mockCreditAssessment "ACME" ⟨90, 85, 70, 1000, 0, 40, 0.3, 0.3, 3⟩).credit_rating.rating = "AAA" ∧
     (mockCreditAssessment "ACME" ⟨90, 85, 70, 1000, 0, 40, 0.3, 0.3, 3⟩).credit_rating.interest_rate_adjustment = -0.02) ∧
    ((mockCreditAssessment "E" ⟨80, 80, 70, 1000, 0, 40, 0.3, 0.3, 3⟩).credit_rating.rating = "AAA") ∧
    ((mockCreditAssessment "E" ⟨70, 70, 70, 1000, 0, 40, 0.3, 0.3, 3⟩).credit_rating.rating = "AA") ∧
    ((mockCreditAssessment "E" ⟨60, 60, 70, 1000, 0, 40, 0.3, 0.3, 3⟩).credit_rating.rating = "A") ∧
    ((mockCreditAssessment "E" ⟨55, 55, 70, 1000, 0, 40, 0.3, 0.3, 3⟩).credit_rating.rating = "BBB") ∧
    ((mockCreditAssessment "E" ⟨40, 40, 70, 1000, 0, 40, 0.3, 0.3, 3⟩).credit_rating.rating = "BB") :=
  ⟨by norm_num [creditCombined],
   (creditRating_bands "ACME" _).1 (by norm_num [creditCombined]),
   ((creditRating_bands "E" _).1 (by norm_num [creditCombined])).1,
   ((creditRating_bands "E" _).2.1 (by norm_num [creditCombined])).1,
   ((creditRating_bands "E" _).2.2.1 (by norm_num [creditCombined])).1,
   ((creditRating_bands "E" _).2.2.2.1 (by norm_num [creditCombined])).1,
   ((creditRating_bands "E" _).2.2.2.2 (by norm_num [creditCombined])).1⟩

/-- C4: in every `PortfolioPair` returned by `mockPortfolioOptimization`, the
per-asset allocation fractions of each of the two portfolios sum to exactly 1,
a structural invariant of the six fixed asset tables. -/
theorem portfolio_allocations_sum_one (capital : ℚ) (rt : String) (tr : ℚ)
    (esgU : ℕ → ℚ) (pair : PortfolioPair)
    (h : mockPortfolioOptimization capital rt tr esgU = some pair) :
    (pair.traditional_portfolio.assets.map Asset.allocation).sum = 1 ∧
    (pair.green_portfolio.assets.map Asset.allocation).sum = 1 := by
  by_cases h1 : rt = "conservative"
  · subst h1
    unfold mockPortfolioOptimization generateAssets assetSets at h
    simp only [Option.map_some', List.mapIdx_cons, List.mapIdx_nil,
      Option.some.injEq, Bool.false_eq_true, Bool.true_eq_false, if_true,
      if_false, reduceIte, ite_true, ite_false, String.reduceEq] at h
    subst h
    constructor <;> norm_num
  · by_cases h2 : rt = "moderate"
    · subst h2
      unfold mockPortfolioOptimization generateAssets assetSets at h
      simp only [Option.map_some', List.mapIdx_cons, List.mapIdx_nil,
        Option.some.injEq, Bool.false_eq_true, Bool.true_eq_false, if_true,
        if_false, reduceIte, ite_true, ite_false, String.reduceEq] at h
      subst h
      constructor <;> norm_num
    · by_cases h3 : rt = "aggressive"
      · subst h3
        unfold mockPortfolioOptimization generateAssets assetSets at h
        simp only [Option.map_some', List.mapIdx_cons, List.mapIdx_nil,
          Option.some.injEq, Bool.false_eq_true, Bool.true_eq_false, if_true,
          if_false, reduceIte, ite_true, ite_false, String.reduceEq] at h
        subst h
        constructor <;> norm_num
      · exfalso
        unfold mockPortfolioOptimization generateAssets assetSets at h
        simp [h1, h2, h3] at h

/-- C4 witness: the invariant evaluated on a concrete call with capital
10000, the moderate tier and a fixed draw source. -/
theorem portfolio_allocations_sum_one_witness :
    ((((mockPortfolioOptimization 10000 "moderate" (7/100) fun _ => 0.7).getD
        default).traditional_portfolio.assets.map Asset.allocation).sum = 1 ∧
     (((mockPortfolioOptimization 10000 "moderate" (7/100) fun _ => 0.7).getD
        default).green_portfolio.assets.map Asset.allocation).sum = 1) :=
  portfolio_allocations_sum_one 10000 "moderate" (7/100) (fun _ => 0.7) _ rfl

/-- C1 counterexample: a rejected application (composite score 48 < 55)
still carries a fully computed `loan_terms` record; the response does not
omit it as the claim states. -/
theorem mockMicroLoan_rejected_includes_loan_terms :
    loanComposite ⟨50, 40, 55, 0.8⟩ < 55 ∧
    (mockMicroLoan "a" 1000 ⟨50, 40, 55, 0.8⟩).approval_status = false ∧
    (mockMicroLoan "a" 1000 ⟨50, 40, 55, 0.8⟩).loan_terms.isSome = true := by
  refine ⟨by norm_num [loanComposite], ?_, rfl⟩
  unfold mockMicroLoan
  dsimp only
  rw [decide_eq_false_iff_not]
  norm_num [loanComposite]

/-- C1 amended: for composite below 55 the response carries
`approval_status = false`, but the `loan_terms` record is still present
(computed from the lowest band); `approval_status` is true exactly when the
composite is at least 55. -/
theorem mockMicroLoan_approval_gate (a : String) (amount : ℚ) (d : LoanDraws) :
    ((mockMicroLoan a amount d).approval_status = true ↔ 55 ≤ loanComposite d) ∧
    (mockMicroLoan a amount d).loan_terms.isSome = true := by
  refine ⟨?_, rfl⟩
  unfold mockMicroLoan
  dsimp only
  rw [decide_eq_true_iff]

/-- C2 counterexample: two draw vectors agreeing on the three primary score
draws (traditional, carbon, esg) but differing in the extra
`randomBetween(0, 1)` draw consumed for `leverage_assessment` produce
different leverage labels, so not every sub-label is a function of the three
primary draws alone. -/
theorem creditAssessment_extra_randomness :
    (CreditDraws.mk 70 60 75 1000 0 40 0.6 0.3 3).traditional =
      (CreditDraws.mk 70 60 75 1000 0 40 0.4 0.3 3).traditional ∧
    (CreditDraws.mk 70 60 75 1000 0 40 0.6 0.3 3).carbon =
      (CreditDraws.mk 70 60 75 1000 0 40 0.4 0.3 3).carbon ∧
    (CreditDraws.mk 70 60 75 1000 0 40 0.6 0.3 3).esg =
      (CreditDraws.mk 70 60 75 1000 0 40 0.4 0.3 3).esg ∧
    (mockCreditAssessment "E" (CreditDraws.mk 70 60 75 1000 0 40 0.6 0.3 3)).risk_analysis.traditional_risk.leverage_assessment ≠
      (mockCreditAssessment "E" (CreditDraws.mk 70 60 75 1000 0 40 0.4 0.3 3)).risk_analysis.traditional_risk.leverage_assessment := by
  refine ⟨rfl, rfl, rfl, ?_⟩
  unfold mockCreditAssessment
  dsimp only
  norm_num
  decide

/-- C2 amended: the sub-labels computed from the three primary draws alone
(revenue, profitability and liquidity assessments, the three ESG ratings,
reputational risk, rating, interest-rate adjustment, risk category, credit
score and the recommendation list) are deterministic functions of those
draws; `leverage_assessment`, `default_history`, the carbon-risk sub-labels
and `sdg_aligned_count` additionally depend on further independent draws. -/
theorem creditAssessment_primary_determined_labels (e : String)
    (d1 d2 : CreditDraws) (ht : d1.traditional = d2.traditional)
    (hc : d1.carbon = d2.carbon) (he : d1.esg = d2.esg) :
    (mockCreditAssessment e d1).risk_analysis.traditional_risk.revenue_assessment =
      (mockCreditAssessment e d2).risk_analysis.traditional_risk.revenue_assessment ∧
    (mockCreditAssessment e d1).risk_analysis.traditional_risk.profitability_assessment =
      (mockCreditAssessment e d2).risk_analysis.traditional_risk.profitability_assessment ∧
    (mockCreditAssessment e d1).risk_analysis.traditional_risk.liquidity_assessment =
      (mockCreditAssessment e d2).risk_analysis.traditional_risk.liquidity_assessment ∧
    (mockCreditAssessment e d1).risk_analysis.esg_risk.environmental_rating =
      (mockCreditAssessment e d2).risk_analysis.esg_risk.environmental_rating ∧
    (mockCreditAssessment e d1).risk_analysis.esg_risk.social_rating =
      (mockCreditAssessment e d2).risk_analysis.esg_risk.social_rating ∧
    (mockCreditAssessment e d1).risk_analysis.esg_risk.governance_rating =
      (mockCreditAssessment e d2).risk_analysis.esg_risk.governance_rating ∧
    (mockCreditAssessment e d1).risk_analysis.esg_risk.reputational_risk =
      (mockCreditAssessment e d2).risk_analysis.esg_risk.reputational_risk ∧
    (mockCreditAssessment e d1).risk_analysis.risk_category =
      (mockCreditAssessment e d2).risk_analysis.risk_category ∧
    (mockCreditAssessment e d1).risk_analysis.credit_score =
      (mockCreditAssessment e d2).risk_analysis.credit_score ∧
    (mockCreditAssessment e d1).credit_rating.rating =
      (mockCreditAssessment e d2).credit_rating.rating ∧
    (mockCreditAssessment e d1).credit_rating.interest_rate_adjustment =
      (mockCreditAssessment e d2).credit_rating.interest_rate_adjustment ∧
    (mockCreditAssessment e d1).recommendations =
      (mockCreditAssessment e d2).recommendations := by
  unfold mockCreditAssessment creditCombined
  dsimp only
  rw [ht, hc, he]
  exact ⟨rfl, rfl, rfl, rfl, rfl, rfl, rfl, rfl, rfl, rfl, rfl, rfl⟩

/-- C2 amended witness: the determinism evaluated on two concrete draw
vectors sharing the primary draws but differing in every secondary draw. -/
theorem creditAssessment_primary_determined_labels_witness :
    (mockCreditAssessment "E" (CreditDraws.mk 70 60 75 1000 (-0.05) 40 0.6 0.9 2)).credit_rating.rating =
      (mockCreditAssessment "E" (CreditDraws.mk 70 60 75 3500 0.05 10 0.4 0.1 4)).credit_rating.rating ∧
    (mockCreditAssessment "E" (CreditDraws.mk 70 60 75 1000 (-0.05) 40 0.6 0.9 2)).recommendations =
      (mockCreditAssessment "E" (CreditDraws.mk 70 60 75 3500 0.05 10 0.4 0.1 4)).recommendations :=
  ⟨((creditAssessment_primary_determined_labels "E" _ _ rfl rfl rfl).2.2.2.2.2.2.2.2.2).1,
   ((creditAssessment_primary_determined_labels "E" _ _ rfl rfl rfl).2.2.2.2.2.2.2.2.2).2.2⟩

/-- C5: the interest rate and maximum-amount multiplier follow the four
composite-score bands (at least 80: 6% and 1.2x; at least 65: 8% and 1.0x;
at least 55: 10% and 0.8x; otherwise 12% and 0.5x), and the approved amount
is the minimum of the requested amount and the capped amount. -/
theorem mockMicroLoan_rate_bands (a : String) (amount : ℚ) (d : LoanDraws) :
    ∃ t, (mockMicroLoan a amount d).loan_terms = some t ∧
      ((80 ≤ loanComposite d →
          t.interest_rate = 0.06 ∧
          t.approved_amount = round2 (min amount (amount * 1.2))) ∧
       (65 ≤ loanComposite d ∧ loanComposite d < 80 →
          t.interest_rate = 0.08 ∧
          t.approved_amount = round2 (min amount amount)) ∧
       (55 ≤ loanComposite d ∧ loanComposite d < 65 →
          t.interest_rate = 0.10 ∧
          t.approved_amount = round2 (min amount (amount * 0.8))) ∧
       (loanComposite d < 55 →
          t.interest_rate = 0.12 ∧
          t.approved_amount = round2 (min amount (amount * 0.5)))) := by
  unfold mockMicroLoan loanInterestRate loanMaxAmount
  dsimp only
  split_ifs with h1 h2 h3 <;>
    refine ⟨_, rfl, ?_, ?_, ?_, ?_⟩ <;> intro h <;>
      first
        | exact ⟨by norm_num [round4, jsRound], rfl⟩
        | (exfalso; first | linarith [h.1, h.2] | linarith [h])

/-- C5 witness: a concrete application in the top band (composite 85). -/
theorem mockMicroLoan_rate_bands_witness :
    ∃ t, (mockMicroLoan "a" 1000 ⟨90, 80, 80, 0.8⟩).loan_terms = some t ∧
      t.interest_rate = 0.06 ∧
      t.approved_amount = round2 (min 1000 (1000 * 1.2)) := by
  obtain ⟨t, ht, hb⟩ := mockMicroLoan_rate_bands "a" 1000 ⟨90, 80, 80, 0.8⟩
  exact ⟨t, ht, hb.1 (by norm_num [loanComposite])⟩

theorem round2_affine_identity_bound (m A : ℚ) :
    |round2 m * 24 - round2 A - round2 (m * 24 - A)| ≤ 13/100 := by
  have h1 := round2_sub_le m
  have h2 := round2_sub_le A
  have h3 := round2_sub_le (m * 24 - A)
  rw [abs_le] at h1 h2 h3 ⊢
  constructor <;> linarith

theorem round2_mul24_bound (m : ℚ) :
    |round2 (m * 24) - round2 m * 24| ≤ 1/8 := by
  have h1 := round2_sub_le m
  have h2 := round2_sub_le (m * 24)
  rw [abs_le] at h1 h2 ⊢
  constructor <;> linarith

/-- C6: the reported loan terms satisfy the amortization identity within
rounding tolerance: the term is 24 months, the monthly payment is the
rounded value of the standard fixed-rate amortization formula at monthly
rate annual/12, and the reported fields satisfy
`monthly_payment * 24 - approved_amount = total_interest` and
`total_repayment = monthly_payment * 24` up to the 2-decimal rounding of
each reported field. -/
theorem mockMicroLoan_amortization (a : String) (amount : ℚ) (d : LoanDraws) :
    ∃ t, (mockMicroLoan a amount d).loan_terms = some t ∧
      t.loan_term_months = 24 ∧
      t.monthly_payment = round2 (loanMonthlyPayment
        (min amount (loanMaxAmount amount (loanComposite d)))
        (loanInterestRate (loanComposite d) / 12)) ∧
      |t.monthly_payment * 24 - t.approved_amount - t.total_interest| ≤ 13/100 ∧
      |t.total_repayment - t.monthly_payment * 24| ≤ 1/8 := by
  unfold mockMicroLoan
  dsimp only
  exact ⟨_, rfl, rfl, rfl, round2_affine_identity_bound _ _, round2_mul24_bound _⟩

/-- C7: the greenwashing risk index equals `min 100 (riskFactors * 15 +
addend)` where `riskFactors` is the sum of the fired rule weights (at most
2 + 3 + 3 = 8), so the index never exceeds 100; the risk level is high
exactly when the index exceeds 60, moderate exactly when it is in (30, 60],
and low exactly when it is at most 30. -/
theorem greenwash_index_clamped (c : String) (d : GreenwashDraws) :
    (mockGreenwashingCheck c d).greenwashing_risk_index =
      min 100 (greenwashRiskFactors d * 15 + d.addend) ∧
    (mockGreenwashingCheck c d).greenwashing_risk_index ≤ 100 ∧
    0 ≤ greenwashRiskFactors d ∧ greenwashRiskFactors d ≤ 8 ∧
    ((mockGreenwashingCheck c d).risk_level = "high" ↔
      60 < (mockGreenwashingCheck c d).greenwashing_risk_index) ∧
    ((mockGreenwashingCheck c d).risk_level = "moderate" ↔
      (30 < (mockGreenwashingCheck c d).greenwashing_risk_index ∧
       (mockGreenwashingCheck c d).greenwashing_risk_index ≤ 60)) ∧
    ((mockGreenwashingCheck c d).risk_level = "low" ↔
      (mockGreenwashingCheck c d).greenwashing_risk_index ≤ 30) := by
  refine ⟨rfl, min_le_left 100 _, ?_, ?_, ?_, ?_, ?_⟩
  · unfold greenwashRiskFactors
    split_ifs <;> norm_num
  · unfold greenwashRiskFactors
    split_ifs <;> norm_num
  all_goals
    unfold mockGreenwashingCheck
    dsimp only
    split_ifs with p1 p2 <;> simp <;> omega

/-- C8: the recommendation thresholds are cumulative: any index above 50
yields all three of the two >50 items and the >30 item, and any index of at
most 30 yields exactly the two low-risk items. -/
theorem greenwash_recommendations_cumulative (c : String) (d : GreenwashDraws) :
    (50 < (mockGreenwashingCheck c d).greenwashing_risk_index →
      (mockGreenwashingCheck c d).recommendations =
        ["Request third-party verification of carbon claims",
         "Conduct detailed supply chain emissions audit",
         "Monitor emissions data more frequently"]) ∧
    ((mockGreenwashingCheck c d).greenwashing_risk_index ≤ 30 →
      (mockGreenwashingCheck c d).recommendations =
        ["Continue current monitoring practices",
         "Consider publishing detailed sustainability reports"]) := by
  unfold mockGreenwashingCheck
  dsimp only
  constructor <;> intro h <;> split_ifs with p1 p2 <;>
    first
      | rfl
      | (exfalso; omega)

/-- C8 witness: a concrete high-risk report (all three rules fire, index
100) showing the cumulative lists, and a concrete low-risk report (no rule
fires, index 0) showing exactly the two low-risk items. -/
theorem greenwash_recommendations_cumulative_witness :
    (mockGreenwashingCheck "co" ⟨85, 3500, 15, 0.06, 0, 0.8⟩).recommendations =
      ["Request third-party verification of carbon claims",
       "Conduct detailed supply chain emissions audit",
       "Monitor emissions data more frequently"] ∧
    (mockGreenwashingCheck "co" ⟨50, 1000, 40, 0, 0, 0.8⟩).recommendations =
      ["Continue current monitoring practices",
       "Consider publishing detailed sustainability reports"] :=
  ⟨(greenwash_recommendations_cumulative "co" ⟨85, 3500, 15, 0.06, 0, 0.8⟩).1
     (by norm_num [mockGreenwashingCheck, greenwashRiskFactors]),
   (greenwash_recommendations_cumulative "co" ⟨50, 1000, 40, 0, 0, 0.8⟩).2
     (by norm_num [mockGreenwashingCheck, greenwashRiskFactors])⟩

end GreenPulse
